import Mathlib

/-!
Verification of the logging helper in src/lib/log.py.

The module has three parts:
* `_LoggingErrorHandler.handleError` (lines 44-55): writes a fixed header and
  the formatted traceback of the in-flight internal error to the raw stream,
  flushes, then re-raises via a bare raise statement;
* `init_logging` (lines 58-69): builds a rotating file handler with
  `LOG_MAX_SIZE` and utf-8 encoding and installs it as the sole handler of the
  process-wide configuration with a fixed format string;
* `log_exception` (lines 72-87): logs the message with the caller arguments,
  then logs each element of `traceback.format_exc().split("\n")` at the same
  level with no arguments.

Behaviour of the platform logging facility that the module delegates to
(threshold filtering, rendering, rotation, percent formatting of messages) is
not part of the repository and is modelled from the spec where a claim needs
it; such definitions carry a doc comment starting with `Modelled from the
spec:`.
-/

set_option linter.unusedVariables false

namespace ScionLog

/-- The platform severity constant DEBUG (numeric value 10). -/
def DEBUG : Nat := 10

/-- The platform severity constant INFO (numeric value 20). -/
def INFO : Nat := 20

/-- The platform severity constant WARNING (numeric value 30). -/
def WARNING : Nat := 30

/-- The platform severity constant ERROR (numeric value 40). -/
def ERROR : Nat := 40

/-- The platform severity constant CRITICAL (numeric value 50). -/
def CRITICAL : Nat := 50

/-- Source line 27: `LOG_MAX_SIZE = 1*1024*1024` (bytes). -/
def LOG_MAX_SIZE : Nat := 1*1024*1024

/-- Embedding of the Python operation `s.split("\n")` on a list of
characters: splits at every newline, keeping empty segments, so the result is
always nonempty and a trailing newline yields a trailing empty segment. -/
def pySplitChars : List Char → List (List Char)
  | [] => [[]]
  | c :: cs =>
    if c = '\n' then [] :: pySplitChars cs
    else
      match pySplitChars cs with
      | [] => [[c]]
      | r :: rs => (c :: r) :: rs

/-- Embedding of the Python operation `s.split("\n")` on strings. -/
def pySplitNl (s : String) : List String :=
  (pySplitChars s.data).map (fun cs => String.mk cs)

/-- An exception currently being handled: its formatted traceback is a
nonempty sequence of lines (`firstLine` followed by `restLines`). -/
structure ActiveExc where
  firstLine : String
  restLines : List String
deriving DecidableEq

/-- Joins text lines, terminating every line (including the last) with a
newline character, the way formatted tracebacks are assembled. -/
def joinNlChars : List String → List Char
  | [] => []
  | l :: ls => l.data ++ '\n' :: joinNlChars ls

/-- Modelled from the spec: `traceback.format_exc()` is not repository code.
It yields the formatted traceback of the exception currently being handled,
every line terminated by a newline; with no active exception it yields the
"None" representation ("NoneType: None" plus newline) rather than failing. -/
def format_exc (excState : Option ActiveExc) : String :=
  match excState with
  | some e => String.mk (joinNlChars (e.firstLine :: e.restLines))
  | none => "NoneType: None\n"

/-- One call to `logging.log`: the severity, the message (or message format
string), the positional arguments and the keyword arguments of the call. -/
structure LogCall where
  level : Nat
  msg : String
  args : List String
  kwargs : List (String × String)
deriving DecidableEq

/-- Embedding of `log_exception` (source lines 72-87): one `logging.log` call
for the message with the caller positional and keyword arguments, then one
`logging.log` call per element of `traceback.format_exc().split("\n")`, each
at the same level with no arguments. -/
def log_exception (msg : String) (args : List String)
    (kwargs : List (String × String)) (excState : Option ActiveExc)
    (level : Nat) : List LogCall :=
  LogCall.mk level msg args kwargs ::
    (pySplitNl (format_exc excState)).map
      (fun line => LogCall.mk level line [] [])

/-- `log_exception` with the level argument left at its source default,
`level=logging.CRITICAL` (source line 72). -/
def log_exception_default (msg : String) (args : List String)
    (kwargs : List (String × String)) (excState : Option ActiveExc) :
    List LogCall :=
  log_exception msg args kwargs excState CRITICAL

/-- One observable action on the raw output stream of the handler. -/
inductive StreamEvent where
  | write (s : String)
  | flush
deriving DecidableEq

/-- Outcome of the bare `raise` statement on source line 55. -/
inductive RaiseResult where
  | reraised (e : ActiveExc)
  | noActiveException
deriving DecidableEq

/-- Embedding of the Python bare `raise` statement: re-raises the exception
currently being handled; with no active exception it raises
RuntimeError("No active exception to re-raise") instead. -/
def bareRaise (excState : Option ActiveExc) : RaiseResult :=
  match excState with
  | some e => RaiseResult.reraised e
  | none => RaiseResult.noActiveException

/-- Embedding of `_LoggingErrorHandler.handleError` (source lines 44-55):
writes the fixed header to the stream, writes `line + "\n"` for every element
of `traceback.format_exc().split("\n")`, flushes, then executes a bare
`raise`. The record argument is ignored by the source. -/
def handleError (record : LogCall) (excState : Option ActiveExc) :
    List StreamEvent × RaiseResult :=
  (StreamEvent.write "Exception in logging module:\n" ::
      ((pySplitNl (format_exc excState)).map
        (fun line => StreamEvent.write (line ++ "\n")) ++
       [StreamEvent.flush]),
   bareRaise excState)

/-- The rotating file handler as constructed by `init_logging`: the bound
file path, the maximum active file size in bytes, and the text encoding. -/
structure RotatingHandler where
  baseFilename : String
  maxBytes : Nat
  encoding : String
deriving DecidableEq

/-- The process-wide logging configuration set by `logging.basicConfig`:
minimum severity, installed handlers, record format string. -/
structure LoggingState where
  level : Nat
  handlers : List RotatingHandler
  format : String
deriving DecidableEq

/-- Embedding of `init_logging` (source lines 58-69), as called once on a
fresh process: constructs the rotating handler with `maxBytes=LOG_MAX_SIZE`
and utf-8 encoding, and configures the process-wide state with the given
threshold, that single handler, and the fixed format string. -/
def init_logging (log_file : String) (level : Nat) : LoggingState :=
  { level := level,
    handlers := [RotatingHandler.mk log_file LOG_MAX_SIZE "utf-8"],
    format := "%(asctime)s [%(levelname)s] (%(threadName)s) %(message)s" }

/-- `init_logging` with the level argument left at its source default,
`level=logging.DEBUG` (source line 58). -/
def init_logging_default (log_file : String) : LoggingState :=
  init_logging log_file DEBUG

/-- A log record as rendered by the installed format: severity, severity
name, timestamp text, thread name, message text. -/
structure Record where
  level : Nat
  levelname : String
  asctime : String
  threadName : String
  message : String
deriving DecidableEq

/-- Modelled from the spec: rendering one record under the installed fixed
format, "`<timestamp> [<LEVEL>] (<thread-name>) <message>`" (the platform
formatter is not repository code). -/
def renderRecord (r : Record) : String :=
  r.asctime ++ " [" ++ r.levelname ++ "] (" ++ r.threadName ++ ") " ++ r.message

/-- Modelled from the spec: the threshold filtering of the platform logging
facility is not repository code. A record at a severity at or above the
configured minimum produces exactly one rendered line; a record strictly
below it produces no line. -/
def handleRecord (st : LoggingState) (r : Record) : List String :=
  if st.level ≤ r.level then [renderRecord r] else []

/-- Sizes, in bytes, of the files owned by the rotating handler: the active
file and the rotated files (most recent first). -/
structure FileState where
  active : Nat
  rotated : List Nat
deriving DecidableEq

/-- Modelled from the spec: the rotating write of the sink is not repository
code. A formatted line is appended to the active file; if the preceding
writes pushed the active file past the maximum size, the file is rotated
(content archived, a fresh empty file opened) before this next write. -/
def rotWrite (maxBytes : Nat) (st : FileState) (n : Nat) : FileState :=
  if maxBytes < st.active then
    FileState.mk n (st.active :: st.rotated)
  else
    FileState.mk (st.active + n) st.rotated

/-- A logging operation performed after initialization: a plain
`logging.log` call, or a `log_exception` call. -/
inductive LogOp where
  | plainLog (c : LogCall)
  | logExc (msg : String) (args : List String)
      (kwargs : List (String × String)) (level : Nat)
      (excState : Option ActiveExc)

/-- Modelled from the spec: effect of one logging operation on the
process-wide configuration. `logging.log` and `log_exception` only emit
records; neither installs or removes handlers nor alters the configuration. -/
def applyOp (st : LoggingState) (op : LogOp) : LoggingState × List LogCall :=
  match op with
  | LogOp.plainLog c => (st, [c])
  | LogOp.logExc m a k l e => (st, log_exception m a k e l)

/-- Runs a sequence of logging operations, threading the configuration. -/
def runOps (st : LoggingState) : List LogOp → LoggingState
  | [] => st
  | op :: ops => runOps (applyOp st op).1 ops

/-- Modelled from the spec: percent formatting of a message format string
against positional arguments, as the underlying logging call performs when
arguments are present. A conversion consumes one argument; a lone or
unsupported conversion character, missing arguments, or leftover arguments
are formatting errors (`none`). -/
def pyFormatAux : List Char → List String → Option (List Char)
  | [], args => if args = [] then some [] else none
  | '%' :: cs, args =>
    match cs with
    | [] => none
    | c :: cs2 =>
      if c = '%' then (pyFormatAux cs2 args).map (fun r => '%' :: r)
      else if c = 's' then
        match args with
        | [] => none
        | a :: args2 => (pyFormatAux cs2 args2).map (fun r => a.data ++ r)
      else none
  | c :: cs, args => (pyFormatAux cs args).map (fun r => c :: r)

/-- Modelled from the spec: the message of a record as produced by the
underlying logging call. Percent formatting is applied only when positional
arguments are present; with no arguments the message text is used verbatim
and no formatting error can occur. -/
def getMessage (c : LogCall) : Option String :=
  if c.args = [] then some c.msg
  else (pyFormatAux c.msg.data c.args).map (fun r => String.mk r)

/-- The split of a character list is never the empty list. -/
theorem pySplitChars_ne_nil (l : List Char) : pySplitChars l ≠ [] := by
  induction l with
  | nil => simp [pySplitChars]
  | cons c cs ih =>
    simp only [pySplitChars]
    split
    · simp
    · cases h : pySplitChars cs <;> simp

/-- Splitting text that ends in a newline appends one empty segment to the
split of the text without it. -/
theorem pySplitChars_append_newline (l : List Char) :
    pySplitChars (l ++ ['\n']) = pySplitChars l ++ [[]] := by
  induction l with
  | nil => simp [pySplitChars]
  | cons c cs ih =>
    by_cases hc : c = '\n'
    · subst hc
      simp [pySplitChars, ih]
    · simp only [List.cons_append, pySplitChars, if_neg hc]
      cases h : pySplitChars cs with
      | nil => exact absurd h (pySplitChars_ne_nil cs)
      | cons r rs => simp [ih, h]

/-- Joining a nonempty list of lines newline-terminated always ends with a
newline character. -/
theorem joinNlChars_ends (l : String) (ls : List String) :
    ∃ cs, joinNlChars (l :: ls) = cs ++ ['\n'] := by
  induction ls generalizing l with
  | nil => exact ⟨l.data, by simp [joinNlChars]⟩
  | cons m ms ih =>
    obtain ⟨cs, hcs⟩ := ih m
    refine ⟨l.data ++ '\n' :: cs, ?_⟩
    have h1 : joinNlChars (l :: m :: ms) = l.data ++ '\n' :: joinNlChars (m :: ms) := rfl
    rw [h1, hcs]
    simp

/-- The captured traceback text always ends with a newline character, for an
active exception as well as for the none representation. -/
theorem format_exc_ends (excState : Option ActiveExc) :
    ∃ cs, (format_exc excState).data = cs ++ ['\n'] := by
  cases excState with
  | none =>
    refine ⟨"NoneType: None".data, ?_⟩
    rfl
  | some e =>
    obtain ⟨cs, hcs⟩ := joinNlChars_ends e.firstLine e.restLines
    exact ⟨cs, hcs⟩

/-- Splitting the captured traceback text on newlines yields a list whose
final element is the empty string. -/
theorem pySplitNl_format_exc (excState : Option ActiveExc) :
    ∃ ts, pySplitNl (format_exc excState) = ts ++ [""] := by
  obtain ⟨cs, hcs⟩ := format_exc_ends excState
  refine ⟨(pySplitChars cs).map (fun l => String.mk l), ?_⟩
  simp [pySplitNl, hcs, pySplitChars_append_newline]

/-- The split of the captured traceback text is never empty. -/
theorem pySplitNl_format_exc_ne_nil (excState : Option ActiveExc) :
    pySplitNl (format_exc excState) ≠ [] := by
  obtain ⟨ts, hts⟩ := pySplitNl_format_exc excState
  simp [hts]

/-- A sequence of logging operations leaves the process-wide configuration
unchanged: emitting records installs or removes nothing. -/
theorem runOps_preserves (ops : List LogOp) (st : LoggingState) :
    runOps st ops = st := by
  induction ops generalizing st with
  | nil => rfl
  | cons op ops ih =>
    cases op with
    | plainLog c => exact ih st
    | logExc m a k l e => exact ih st

/-- Claim C1: when the internal error handler of the sink is invoked for a
record whose formatting or writing raised an error, it writes the fixed
header line "Exception in logging module:" to the raw output stream, then
writes every line of the formatted traceback of that internal error to the
same stream in order, then flushes the stream, and then re-raises the error
so it propagates out of the handler. -/
theorem handleError_diagnose_then_reraise (record : LogCall) (e : ActiveExc) :
    (handleError record (some e)).1 =
      StreamEvent.write "Exception in logging module:\n" ::
        ((pySplitNl (format_exc (some e))).map
          (fun line => StreamEvent.write (line ++ "\n")) ++
         [StreamEvent.flush]) ∧
    (handleError record (some e)).1.head? =
      some (StreamEvent.write "Exception in logging module:\n") ∧
    (handleError record (some e)).1.getLast? = some StreamEvent.flush ∧
    (handleError record (some e)).2 = RaiseResult.reraised e := by
  refine ⟨rfl, rfl, ?_, rfl⟩
  show (StreamEvent.write "Exception in logging module:\n" ::
      ((pySplitNl (format_exc (some e))).map
        (fun line => StreamEvent.write (line ++ "\n")) ++
       [StreamEvent.flush])).getLast? = some StreamEvent.flush
  rw [← List.cons_append, List.getLast?_concat]

/-- Claim C2: for every message, positional arguments, keyword arguments and
severity, log_exception emits exactly one record for the message first, and
only afterwards one record per line of the split captured traceback, in
original top-to-bottom order, every record at the same severity; with the
severity omitted it defaults to CRITICAL. -/
theorem log_exception_message_then_traceback (m : String) (a : List String)
    (k : List (String × String)) (l : Nat) (e : ActiveExc) :
    (log_exception m a k (some e) l).length
      = (pySplitNl (format_exc (some e))).length + 1 ∧
    (log_exception m a k (some e) l).head? = some (LogCall.mk l m a k) ∧
    (∀ i : Nat, (log_exception m a k (some e) l)[i + 1]?
      = ((pySplitNl (format_exc (some e)))[i]?).map
          (fun s => LogCall.mk l s [] [])) ∧
    ((log_exception m a k (some e) l).all (fun c => c.level == l)) = true ∧
    log_exception_default m a k (some e) = log_exception m a k (some e) CRITICAL := by
  refine ⟨by simp [log_exception], rfl, ?_, ?_, rfl⟩
  · intro i
    simp [log_exception]
  · rw [List.all_eq_true]
    intro c hc
    simp only [log_exception, List.mem_cons, List.mem_map] at hc
    rcases hc with rfl | ⟨s, hs, rfl⟩ <;> simp

/-- Claim C3: calling log_exception with no exception being handled does not
fail: it still emits the message record and then the records for the
traceback capture result, which is the "None" representation ("NoneType:
None" plus trailing empty segment) rather than a failure. -/
theorem log_exception_no_active (m : String) (a : List String)
    (k : List (String × String)) (l : Nat) :
    format_exc none = "NoneType: None\n" ∧
    log_exception m a k none l =
      [LogCall.mk l m a k, LogCall.mk l "NoneType: None" [] [],
       LogCall.mk l "" [] []] := by
  refine ⟨rfl, ?_⟩
  have h : pySplitNl (format_exc none) = ["NoneType: None", ""] := by decide
  show LogCall.mk l m a k :: (pySplitNl (format_exc none)).map
      (fun line => LogCall.mk l line [] []) = _
  rw [h]
  rfl

/-- Claim C8: the captured traceback text always ends with a newline, so the
split on the newline character has a trailing empty string: log_exception
emits one extra record whose message is the empty string after the last
traceback line, and handleError writes one extra blank line to the raw
stream after the last traceback line (just before the flush). -/
theorem trailing_empty_line (excState : Option ActiveExc) (m : String)
    (a : List String) (k : List (String × String)) (l : Nat)
    (record : LogCall) :
    (pySplitNl (format_exc excState)).getLast? = some "" ∧
    (log_exception m a k excState l).getLast? = some (LogCall.mk l "" [] []) ∧
    ((handleError record excState).1.dropLast).getLast?
      = some (StreamEvent.write "\n") := by
  obtain ⟨ts, hts⟩ := pySplitNl_format_exc excState
  refine ⟨?_, ?_, ?_⟩
  · rw [hts, List.getLast?_concat]
  · have h1 : log_exception m a k excState l =
        (LogCall.mk l m a k :: ts.map (fun s => LogCall.mk l s [] [])) ++
          [LogCall.mk l "" [] []] := by
      simp [log_exception, hts]
    rw [h1, List.getLast?_concat]
  · have h2 : (handleError record excState).1 =
        (StreamEvent.write "Exception in logging module:\n" ::
          (pySplitNl (format_exc excState)).map
            (fun line => StreamEvent.write (line ++ "\n"))) ++
          [StreamEvent.flush] := by
      simp [handleError]
    rw [h2, List.dropLast_concat]
    have h3 : (pySplitNl (format_exc excState)).map
        (fun line => StreamEvent.write (line ++ "\n")) =
        (ts.map (fun line => StreamEvent.write (line ++ "\n"))) ++
          [StreamEvent.write "\n"] := by
      rw [hts]
      simp
    rw [h3, ← List.cons_append, List.getLast?_concat]

/-- Claim C9: the bare raise in handleError re-raises only an exception that
is currently being handled; invoked with no active exception, the bare raise
fails with the runtime "no active exception" error rather than re-raising the
record error, so the diagnose-then-crash contract needs an active
exception-handling scope. -/
theorem handleError_requires_active (record : LogCall) :
    (∀ e : ActiveExc,
      (handleError record (some e)).2 = RaiseResult.reraised e) ∧
    (handleError record none).2 = RaiseResult.noActiveException ∧
    (∀ e : ActiveExc,
      (handleError record none).2 ≠ RaiseResult.reraised e) := by
  refine ⟨fun e => rfl, rfl, fun e => ?_⟩
  simp [handleError, bareRaise]

/-- Concrete witness for claim C9: with no active exception the handler
raise yields the runtime error outcome and not a re-raise. -/
theorem handleError_requires_active_witness :
    (handleError (LogCall.mk CRITICAL "m" [] []) none).2
      = RaiseResult.noActiveException ∧
    (handleError (LogCall.mk CRITICAL "m" [] []) none).2
      ≠ RaiseResult.reraised (ActiveExc.mk "ValueError: x" []) :=
  ⟨(handleError_requires_active (LogCall.mk CRITICAL "m" [] [])).2.1,
   (handleError_requires_active (LogCall.mk CRITICAL "m" [] [])).2.2
     (ActiveExc.mk "ValueError: x" [])⟩

/-- Claim C4: after the initializer has been called with a severity
threshold, a record at a severity at or above the threshold produces exactly
one line in the log file, in the fixed format and containing the message,
and a record at a severity strictly below the threshold produces no line. -/
theorem init_logging_threshold (f : String) (L : Nat) (r : Record) :
    (L ≤ r.level →
      handleRecord (init_logging f L) r = [renderRecord r] ∧
      ∃ p, renderRecord r = p ++ r.message) ∧
    (r.level < L → handleRecord (init_logging f L) r = []) := by
  constructor
  · intro h
    refine ⟨?_, ⟨r.asctime ++ " [" ++ r.levelname ++ "] (" ++
      r.threadName ++ ") ", rfl⟩⟩
    simp [handleRecord, init_logging, h]
  · intro h
    have h2 : ¬ (L ≤ r.level) := Nat.not_le.mpr h
    simp [handleRecord, init_logging, h2]

/-- Concrete witness for claim C4: with threshold INFO, an ERROR record
yields exactly its rendered line and a DEBUG record yields nothing. -/
theorem init_logging_threshold_witness :
    handleRecord (init_logging "scion.log" INFO)
        (Record.mk ERROR "ERROR" "2026-10-12 10:00:00" "MainThread" "oops")
      = [renderRecord
          (Record.mk ERROR "ERROR" "2026-10-12 10:00:00" "MainThread" "oops")] ∧
    handleRecord (init_logging "scion.log" INFO)
        (Record.mk DEBUG "DEBUG" "2026-10-12 10:00:01" "MainThread" "detail")
      = [] :=
  ⟨((init_logging_threshold "scion.log" INFO
      (Record.mk ERROR "ERROR" "2026-10-12 10:00:00" "MainThread" "oops")).1
      (by decide)).1,
   (init_logging_threshold "scion.log" INFO
      (Record.mk DEBUG "DEBUG" "2026-10-12 10:00:01" "MainThread" "detail")).2
      (by decide)⟩

/-- Claim C5: the maximum active log file size used by the initializer is
exactly 1048576 bytes (1*1024*1024), the sink is constructed with utf-8 text
encoding, and once the cap is exceeded the file is rotated before the next
write, so the active file never grows past the cap without rotation. -/
theorem log_max_size_and_rotation (f : String) (L : Nat) (st : FileState)
    (n : Nat) (h : LOG_MAX_SIZE < st.active) :
    LOG_MAX_SIZE = 1048576 ∧
    (init_logging f L).handlers = [RotatingHandler.mk f 1048576 "utf-8"] ∧
    rotWrite LOG_MAX_SIZE st n = FileState.mk n (st.active :: st.rotated) := by
  refine ⟨rfl, rfl, ?_⟩
  simp [rotWrite, h]

/-- Concrete witness for claim C5: an active file one byte over the cap is
archived at the next write and a fresh active file receives that write. -/
theorem log_max_size_and_rotation_witness :
    LOG_MAX_SIZE = 1048576 ∧
    (init_logging "scion.log" DEBUG).handlers
      = [RotatingHandler.mk "scion.log" 1048576 "utf-8"] ∧
    rotWrite LOG_MAX_SIZE (FileState.mk 1048577 []) 80
      = FileState.mk 80 [1048577] :=
  log_max_size_and_rotation "scion.log" DEBUG (FileState.mk 1048577 []) 80
    (by decide)

/-- Claim C6: the initializer sets the process-wide record format to the
fixed format string (timestamp, bracketed level, parenthesized thread name,
message), and the omitted severity threshold defaults to DEBUG, the lowest
of the severity constants. -/
theorem init_logging_format_and_default (f : String) (L : Nat) :
    (init_logging f L).format
      = "%(asctime)s [%(levelname)s] (%(threadName)s) %(message)s" ∧
    init_logging_default f = init_logging f DEBUG ∧
    DEBUG = 10 ∧ DEBUG ≤ INFO ∧ DEBUG ≤ WARNING ∧ DEBUG ≤ ERROR ∧
    DEBUG ≤ CRITICAL := by
  refine ⟨rfl, rfl, rfl, ?_, ?_, ?_, ?_⟩ <;> decide

/-- Claim C7: after initialization, exactly one sink (the rotating handler
bound to the given path) is installed process-wide, and any sequence of
later logging operations (plain records and log_exception calls) preserves
that single-sink state. -/
theorem single_sink_invariant (f : String) (L : Nat) (ops : List LogOp) :
    runOps (init_logging f L) ops
      = LoggingState.mk L [RotatingHandler.mk f LOG_MAX_SIZE "utf-8"]
          "%(asctime)s [%(levelname)s] (%(threadName)s) %(message)s" ∧
    (runOps (init_logging f L) ops).handlers
      = [RotatingHandler.mk f LOG_MAX_SIZE "utf-8"] ∧
    (runOps (init_logging f L) ops).handlers.length = 1 := by
  rw [runOps_preserves]
  exact ⟨rfl, rfl, rfl⟩

/-- Claim C10: log_exception applies the caller positional and keyword
arguments only to the initial message record; every traceback-line record is
logged with no arguments, so percent characters in traceback text are never
treated as format placeholders and producing the record message cannot fail. -/
theorem log_exception_plain_traceback_lines (m : String) (a : List String)
    (k : List (String × String)) (excState : Option ActiveExc) (l : Nat)
    (c : LogCall) (hc : c ∈ (log_exception m a k excState l).tail) :
    (log_exception m a k excState l).head? = some (LogCall.mk l m a k) ∧
    c.args = [] ∧ c.kwargs = [] ∧ getMessage c = some c.msg := by
  refine ⟨rfl, ?_⟩
  simp only [log_exception, List.tail_cons, List.mem_map] at hc
  obtain ⟨s, hs, rfl⟩ := hc
  exact ⟨rfl, rfl, rfl⟩

/-- Concrete witness for claim C10: a traceback line containing a percent
character is logged argument-free and its record message is the line
verbatim. -/
theorem log_exception_plain_traceback_lines_witness :
    LogCall.mk ERROR "ValueError: 50% failure" [] [] ∈
      (log_exception "boom" ["ctx"] [] (some (ActiveExc.mk
        "Traceback (most recent call last):" ["ValueError: 50% failure"]))
        ERROR).tail ∧
    getMessage (LogCall.mk ERROR "ValueError: 50% failure" [] [])
      = some "ValueError: 50% failure" := by
  have hm : LogCall.mk ERROR "ValueError: 50% failure" [] [] ∈
      (log_exception "boom" ["ctx"] [] (some (ActiveExc.mk
        "Traceback (most recent call last):" ["ValueError: 50% failure"]))
        ERROR).tail := by
    decide
  exact ⟨hm, (log_exception_plain_traceback_lines "boom" ["ctx"] []
    (some (ActiveExc.mk "Traceback (most recent call last):"
      ["ValueError: 50% failure"])) ERROR
    (LogCall.mk ERROR "ValueError: 50% failure" [] []) hm).2.2.2⟩

end ScionLog
